import Mathlib

/- Shallow embedding of the ChainX Telegram bot's query pipeline
   (src/main.py): schema registry, predicate evaluator, filter extractor,
   entity resolver, response formatter and the reply/truncation step.
   Python strings are modeled as lists of Unicode code points; Python dicts
   appear as association lists in insertion order; a Python exception
   escaping a function is modeled as `Except.error`. -/

/-- Python strings: lists of Unicode code points. -/
abbrev Str := List Char

/-- ASCII lowercase conversion; `str.lower` restricted to the ASCII range
    (all strings the pipeline lowercases and compares are ASCII). -/
def lowerChar (c : Char) : Char :=
  if 'A' ≤ c ∧ c ≤ 'Z' then Char.ofNat (c.toNat + 32) else c

/-- Python `str.lower` (ASCII fragment). -/
def lowerS (s : Str) : Str := s.map lowerChar

/-- ASCII uppercase conversion for `str.capitalize`. -/
def upperChar (c : Char) : Char :=
  if 'a' ≤ c ∧ c ≤ 'z' then Char.ofNat (c.toNat - 32) else c

/-- Python `str.capitalize`: first character uppercased, the rest lowercased. -/
def capitalizeS : Str → Str
  | [] => []
  | c :: cs => upperChar c :: lowerS cs

/-- Whitespace characters stripped by Python `str.strip` (ASCII fragment). -/
def isSpaceChar (c : Char) : Bool :=
  c == ' ' || c == '\t' || c == '\n' || c == '\r' || c == '\x0B' || c == '\x0C'

/-- Python `str.strip`: remove leading and trailing whitespace. -/
def pyStrip (s : Str) : Str :=
  ((s.dropWhile isSpaceChar).reverse.dropWhile isSpaceChar).reverse

/-- Python `str.startswith`. -/
def startsWithS : Str → Str → Bool
  | _, [] => true
  | [], _ :: _ => false
  | c :: cs, p :: ps => c == p && startsWithS cs ps

/-- Python `str.endswith`. -/
def endsWithS (s p : Str) : Bool := startsWithS s.reverse p.reverse

/-- The pattern `sub` occurs in `s` starting at position `i` (and fits). -/
def matchesAt (s sub : Str) (i : Nat) : Bool :=
  decide (i + sub.length ≤ s.length) && decide ((s.drop i).take sub.length = sub)

/-- Python's substring containment test `sub in s`. -/
def containsSub (s sub : Str) : Bool :=
  (List.range (s.length + 1)).any (fun i => matchesAt s sub i)

/-- Python `condition.split(' ', 1)` restricted to its use in apply_filter:
    `some (before, after)` when the string contains a space (2 parts),
    `none` when it does not (1 part, so `len(parts) != 2`). -/
def splitOnce : Str → Option (Str × Str)
  | [] => none
  | c :: cs =>
    if c == ' ' then some ([], cs)
    else
      match splitOnce cs with
      | none => none
      | some (a, b) => some (c :: a, b)

/-- Decimal digit test. -/
def isDigitC (c : Char) : Bool := decide ('0' ≤ c ∧ c ≤ '9')

/-- Value of a digit string, most significant first. -/
def digitsVal (ds : Str) : Nat := ds.foldl (fun a c => a * 10 + (c.toNat - 48)) 0

/-- Exponent part of a float literal: optional sign then at least one digit. -/
def parseExpPart : Str → Option Int
  | '+' :: ds => if ds ≠ [] ∧ ds.all isDigitC then some (digitsVal ds : Int) else none
  | '-' :: ds => if ds ≠ [] ∧ ds.all isDigitC then some (-(digitsVal ds : Int)) else none
  | ds => if ds ≠ [] ∧ ds.all isDigitC then some (digitsVal ds : Int) else none

/-- Digits/point part of a Python float literal (after the optional sign):
    `digits [. digits] [exp]` with at least one digit overall. Exponents are
    scaled exactly over ℚ; `inf`, `nan` and digit underscores are not modeled
    (never produced by the pipeline's condition strings). -/
def parseMantissa (s : Str) : Option ℚ :=
  let ip := s.takeWhile isDigitC
  match s.dropWhile isDigitC with
  | [] => if ip = [] then none else some (digitsVal ip : ℚ)
  | '.' :: r2 =>
    let fp := r2.takeWhile isDigitC
    let r3 := r2.dropWhile isDigitC
    if ip = [] ∧ fp = [] then none
    else
      let m : ℚ := (digitsVal ip : ℚ) + (digitsVal fp : ℚ) / (10 : ℚ) ^ fp.length
      match r3 with
      | [] => some m
      | 'e' :: r4 => (parseExpPart r4).map (fun e => m * (10 : ℚ) ^ e)
      | 'E' :: r4 => (parseExpPart r4).map (fun e => m * (10 : ℚ) ^ e)
      | _ => none
  | 'e' :: r4 =>
    if ip = [] then none
    else (parseExpPart r4).map (fun e => (digitsVal ip : ℚ) * (10 : ℚ) ^ e)
  | 'E' :: r4 =>
    if ip = [] then none
    else (parseExpPart r4).map (fun e => (digitsVal ip : ℚ) * (10 : ℚ) ^ e)
  | _ => none

/-- Python `float(string)`: strip whitespace, optional sign, mantissa. -/
def parseFloat? (s : Str) : Option ℚ :=
  match pyStrip s with
  | '+' :: r => parseMantissa r
  | '-' :: r => (parseMantissa r).map Neg.neg
  | r => parseMantissa r

/-- Scalar values as they appear in fetched records and in extracted filter
    conditions (JSON scalars). Nested arrays/objects are not modeled; no
    claim inspects them. -/
inductive PyVal where
  | str : Str → PyVal
  | num : ℚ → PyVal
  | boolv : Bool → PyVal
  | null : PyVal
deriving DecidableEq

/-- Decimal rendering of an integer. -/
def intToStr (i : Int) : Str :=
  if i < 0 then '-' :: Nat.toDigits 10 i.natAbs else Nat.toDigits 10 i.natAbs

/-- Python `str()` of a scalar. For numeric values this is a simplified exact
    rendering (Python float repr differs in general); the claims only apply
    `str()` to string values, where it is the identity. -/
def pyStr : PyVal → Str
  | .str s => s
  | .num q => if q.den = 1 then intToStr q.num
              else intToStr q.num ++ '/' :: Nat.toDigits 10 q.den
  | .boolv b => if b then "True".toList else "False".toList
  | .null => "None".toList

/-- Python `float(x)` on a field value: numbers pass through, booleans coerce
    to 0/1, strings are parsed, `None` raises TypeError (caught by the
    caller's `except (ValueError, TypeError)`, hence `none`). -/
def toFloat? : PyVal → Option ℚ
  | .str s => parseFloat? s
  | .num q => some q
  | .boolv b => some (if b then 1 else 0)
  | .null => none

/-- A fetched record: a JSON object, as an association list. -/
abbrev Record := List (Str × PyVal)

/-- Declared field value types (the strings 'string' / 'number'). -/
inductive FieldType where
  | stringT
  | numberT
deriving DecidableEq

/-- Per-entity field→type table (FIELD_TYPES in src/main.py); an unknown
    entity maps to the empty table, as `FIELD_TYPES.get(entity, {})`. -/
def FIELD_TYPES (entity : Str) : List (Str × FieldType) :=
  if entity = "products".toList then
    [("product_name".toList, .stringT), ("product_description".toList, .stringT),
     ("batch_number".toList, .stringT), ("factory_id".toList, .stringT),
     ("product_price".toList, .numberT), ("product_stock".toList, .numberT),
     ("mrp".toList, .numberT)]
  else if entity = "warehouses".toList then
    [("name".toList, .stringT), ("description".toList, .stringT),
     ("latitude".toList, .numberT), ("longitude".toList, .numberT),
     ("contact_details".toList, .stringT), ("warehouse_size".toList, .numberT),
     ("balance".toList, .numberT), ("factory_id".toList, .stringT),
     ("product_id".toList, .stringT), ("product_count".toList, .numberT),
     ("logistic_count".toList, .numberT)]
  else if entity = "sellers".toList then
    [("name".toList, .stringT), ("seller_id".toList, .stringT),
     ("description".toList, .stringT), ("latitude".toList, .numberT),
     ("longitude".toList, .numberT), ("contact_info".toList, .stringT),
     ("balance".toList, .numberT), ("products_count".toList, .numberT),
     ("order_count".toList, .numberT)]
  else if entity = "logistics".toList then
    [("name".toList, .stringT), ("logistic_id".toList, .stringT),
     ("transportation_mode".toList, .stringT), ("status".toList, .stringT),
     ("contact_info".toList, .stringT), ("shipment_cost".toList, .numberT),
     ("product_id".toList, .stringT), ("product_stock".toList, .numberT),
     ("warehouse_id".toList, .stringT), ("latitude".toList, .numberT),
     ("longitude".toList, .numberT), ("balance".toList, .numberT)]
  else if entity = "inspectors".toList then
    [("name".toList, .stringT), ("inspector_id".toList, .stringT),
     ("latitude".toList, .numberT), ("longitude".toList, .numberT),
     ("balance".toList, .numberT), ("fee_charge_per_product".toList, .numberT)]
  else if entity = "factories".toList then
    [("name".toList, .stringT), ("factory_id".toList, .stringT),
     ("description".toList, .stringT), ("latitude".toList, .numberT),
     ("longitude".toList, .numberT), ("contact_info".toList, .stringT),
     ("product_count".toList, .numberT), ("balance".toList, .numberT)]
  else []

/-- DATA_SOURCES in src/main.py: entity name → upstream URL. -/
def DATA_SOURCES : List (Str × Str) :=
  [("sellers".toList, "https://chainx-beta.vercel.app/api/seller".toList),
   ("warehouses".toList, "https://chainx-beta.vercel.app/api/warehouse".toList),
   ("products".toList, "https://chainx-beta.vercel.app/api/product".toList),
   ("logistics".toList, "https://chainx-beta.vercel.app/api/logistic".toList),
   ("inspectors".toList, "https://chainx-beta.vercel.app/api/inspector".toList),
   ("factories".toList, "https://chainx-beta.vercel.app/api/factories".toList)]

/-- Exceptions escaping the predicate evaluator: calling a string method
    (`.startswith` / `.split`) on a non-string condition value raises
    AttributeError, which apply_filter does not catch. -/
inductive PyErr where
  | attrError
deriving DecidableEq

/-- Predicate evaluator (apply_filter in src/main.py). `.error` marks exactly
    the places where the Python raises an uncaught exception. The numeric
    branch's `float` failures (ValueError / TypeError) are caught by the
    source's `except (ValueError, TypeError)` and return `False`; the order
    of its comparisons mirrors the source's negated early returns. -/
def apply_filter (item : Record) (filters : List (Str × PyVal)) (entity : Str) :
    Except PyErr Bool :=
  match filters with
  | [] => .ok true
  | (field, condition) :: rest =>
    match List.lookup field item with
    | none => apply_filter item rest entity
    | some itemVal =>
      match List.lookup field (FIELD_TYPES entity) with
      | some .stringT =>
        match condition with
        | .str c =>
          if startsWithS c "contains '".toList && endsWithS c "'".toList then
            let text := lowerS ((c.drop "contains '".toList.length).dropLast)
            if containsSub (lowerS (pyStr itemVal)) text then
              apply_filter item rest entity
            else .ok false
          else if startsWithS c "exact '".toList && endsWithS c "'".toList then
            let text := lowerS ((c.drop "exact '".toList.length).dropLast)
            if lowerS (pyStr itemVal) = text then apply_filter item rest entity
            else .ok false
          else .ok false
        | _ => .error .attrError
      | some .numberT =>
        match condition with
        | .str c =>
          match splitOnce c with
          | none => .ok false
          | some (op, valueStr) =>
            match parseFloat? valueStr with
            | none => .ok false
            | some v =>
              match toFloat? itemVal with
              | none => .ok false
              | some itemValue =>
                if op = "<".toList then
                  if itemValue ≥ v then .ok false else apply_filter item rest entity
                else if op = ">".toList then
                  if itemValue ≤ v then .ok false else apply_filter item rest entity
                else if op = "=".toList then
                  if itemValue ≠ v then .ok false else apply_filter item rest entity
                else if op = "<=".toList then
                  if itemValue > v then .ok false else apply_filter item rest entity
                else if op = ">=".toList then
                  if itemValue < v then .ok false else apply_filter item rest entity
                else .ok false
        | _ => .error .attrError
      | none => apply_filter item rest entity

/-- C2: the extractor's own prompt format `"<50"` (no space between operator
    and number) is rejected by apply_filter — `split(' ', 1)` yields a single
    part — so a product priced below 50 does not match, contradicting the
    end-to-end scenario's `Found 3 Products where product_price <50`. -/
theorem c2_price_lt50_no_space_rejected :
    apply_filter [("product_price".toList, PyVal.num 30)]
      [("product_price".toList, PyVal.str "<50".toList)] "products".toList
      = Except.ok false := by
  rfl

/-- C6: a record lacking every field named in the FilterSet satisfies
    apply_filter — each absent-field condition is skipped and the empty
    conjunction is true. -/
theorem c6_missing_fields_vacuous_match
    (item : Record) (filters : List (Str × PyVal)) (entity : Str)
    (h : ∀ p ∈ filters, List.lookup p.1 item = none) :
    apply_filter item filters entity = .ok true := by
  induction filters with
  | nil => rfl
  | cons p rest ih =>
    obtain ⟨field, condition⟩ := p
    have h1 : List.lookup field item = none := h _ (List.mem_cons_self _ _)
    rw [apply_filter, h1]
    exact ih (fun q hq => h q (List.mem_cons_of_mem _ hq))

/-- C6 witness: a concrete record with none of the filtered fields matches. -/
theorem c6_missing_fields_vacuous_match_witness :
    apply_filter [("a".toList, PyVal.num 1)]
      [("b".toList, PyVal.str "x".toList), ("product_price".toList, PyVal.str "<50".toList)]
      "products".toList = .ok true :=
  c6_missing_fields_vacuous_match _ _ _ (by decide)

/-- Outcome of one inference call (`model.generate_content_async`), as seen by
    its caller: a response with a `.text` attribute, a response lacking it,
    a google_exceptions.GoogleAPIError, or another exception. -/
inductive GenOutcome where
  | text : Str → GenOutcome
  | noText : GenOutcome
  | apiError : GenOutcome
  | otherError : GenOutcome

/-- Error kinds re-raised by detect_entity. -/
inductive InferErr where
  | apiError
  | otherError
deriving DecidableEq

/-- Entity resolver (detect_entity in src/main.py): strip and lowercase the
    inference response; the literal `none` or any token not among the
    DATA_SOURCES keys yields `None`. A response without `.text` is treated
    as `none`; hard inference failures are re-raised. -/
def detect_entity : GenOutcome → Except InferErr (Option Str)
  | .text t =>
    let entity := lowerS (pyStrip t)
    if entity = "none".toList ∨ List.lookup entity DATA_SOURCES = none then .ok none
    else .ok (some entity)
  | .noText => .ok none
  | .apiError => .error .apiError
  | .otherError => .error .otherError

/-- JSON values as returned by `json.loads`. -/
inductive JsonVal where
  | str : Str → JsonVal
  | num : ℚ → JsonVal
  | boolv : Bool → JsonVal
  | null : JsonVal
  | arr : List JsonVal → JsonVal
  | obj : List (Str × JsonVal) → JsonVal

/-- Whether a decoded JSON value is an object (`isinstance(filters, dict)`). -/
def JsonVal.isObj : JsonVal → Bool
  | .obj _ => true
  | _ => false

/-- Filter extractor (extract_filters in src/main.py), parameterized by the
    JSON decoder `loads` (`json.loads`: `none` models JSONDecodeError). Every
    failure path of the source — empty stripped response, undecodable JSON,
    decoded non-dict, missing `.text`, GoogleAPIError, any other exception —
    is caught there and returns the empty dict, so the model is total. -/
def extract_filters (loads : Str → Option JsonVal) :
    GenOutcome → List (Str × JsonVal)
  | .text t =>
    let response_text := pyStrip t
    if response_text = [] then []
    else
      match loads response_text with
      | some (.obj fs) => fs
      | some _ => []
      | none => []
  | .noText => []
  | .apiError => []
  | .otherError => []

/-- C7: the filter extractor returns the empty FilterSet — and cannot raise,
    being a total function — on an empty inference response, on output that
    is not valid JSON, on JSON that does not decode to an object, and on
    every hard failure of the inference capability. -/
theorem c7_extract_filters_malformed_yields_empty :
    ∀ (loads : Str → Option JsonVal) (t : Str),
      (pyStrip t = [] → extract_filters loads (.text t) = [])
      ∧ (loads (pyStrip t) = none → pyStrip t ≠ [] → extract_filters loads (.text t) = [])
      ∧ (∀ j, loads (pyStrip t) = some j → j.isObj = false →
          extract_filters loads (.text t) = [])
      ∧ extract_filters loads .noText = []
      ∧ extract_filters loads .apiError = []
      ∧ extract_filters loads .otherError = [] := by
  intro loads t
  refine ⟨fun h => by simp [extract_filters, h], fun h hne => ?_, fun j hj hobj => ?_, rfl, rfl, rfl⟩
  · simp [extract_filters, hne, h]
  · by_cases hne : pyStrip t = []
    · simp [extract_filters, hne]
    · cases j with
      | obj fs => simp [JsonVal.isObj] at hobj
      | str s => simp [extract_filters, hne, hj]
      | num q => simp [extract_filters, hne, hj]
      | boolv b => simp [extract_filters, hne, hj]
      | null => simp [extract_filters, hne, hj]
      | arr xs => simp [extract_filters, hne, hj]

/-- C7 witness: concrete malformed outcomes all yield the empty FilterSet. -/
theorem c7_extract_filters_malformed_yields_empty_witness :
    extract_filters (fun _ => Option.none) (.text "  ".toList) = []
    ∧ extract_filters (fun _ => Option.none) (.text "not json".toList) = []
    ∧ extract_filters (fun _ => some (JsonVal.arr [])) (.text "[]".toList) = []
    ∧ extract_filters (fun _ => some (JsonVal.arr [])) .apiError = [] := by
  refine ⟨?_, ?_, ?_, ?_⟩
  · exact (c7_extract_filters_malformed_yields_empty (fun _ => Option.none) ("  ".toList)).1 (by decide)
  · exact (c7_extract_filters_malformed_yields_empty (fun _ => Option.none) ("not json".toList)).2.1 rfl (by decide)
  · exact (c7_extract_filters_malformed_yields_empty (fun _ => some (JsonVal.arr [])) ("[]".toList)).2.2.1 (JsonVal.arr []) rfl rfl
  · exact (c7_extract_filters_malformed_yields_empty (fun _ => some (JsonVal.arr [])) ("x".toList)).2.2.2.2.1

/-- C8: an inference response whose stripped, lowercased token is `none`, or
    is not one of the six known entity names, resolves to `None` without
    error; a response object without text resolves to `None`; and only hard
    failures of the inference call propagate (every text outcome is `ok`). -/
theorem c8_detect_entity_unknown_yields_none :
    (∀ t : Str,
        (lowerS (pyStrip t) = "none".toList
          ∨ List.lookup (lowerS (pyStrip t)) DATA_SOURCES = none) →
        detect_entity (.text t) = .ok none)
    ∧ detect_entity .noText = .ok none
    ∧ detect_entity .apiError = .error .apiError
    ∧ detect_entity .otherError = .error .otherError
    ∧ (∀ t : Str, ∃ r, detect_entity (.text t) = .ok r) := by
  refine ⟨fun t h => ?_, rfl, rfl, rfl, fun t => ?_⟩
  · simp only [detect_entity]
    rw [if_pos h]
  · by_cases h : lowerS (pyStrip t) = "none".toList
        ∨ List.lookup (lowerS (pyStrip t)) DATA_SOURCES = none
    · exact ⟨none, by simp only [detect_entity]; rw [if_pos h]⟩
    · exact ⟨some (lowerS (pyStrip t)), by simp only [detect_entity]; rw [if_neg h]⟩

/-- C8 witness: the hallucinated entity `widgets` resolves to `None`. -/
theorem c8_detect_entity_unknown_yields_none_witness :
    detect_entity (.text "Widgets ".toList) = .ok none :=
  c8_detect_entity_unknown_yields_none.1 ("Widgets ".toList) (Or.inr (by decide))

/-- The single-quote character, named to state lemmas about condition text. -/
def quoteC : Char := Char.ofNat 39

theorem toList_quote : "'".toList = [quoteC] := by decide

theorem startsWithS_app (p r : Str) : startsWithS (p ++ r) p = true := by
  induction p with
  | nil => simp [startsWithS]
  | cons c cs ih => simp [startsWithS, ih]

theorem endsWithS_app (a p : Str) : endsWithS (a ++ p) p = true := by
  simp [endsWithS, List.reverse_append, startsWithS_app]

theorem dropLast_app_quote (t : Str) : (t ++ "'".toList).dropLast = t := by
  rw [toList_quote, List.dropLast_concat]

theorem containsSub_iff (s sub : Str) :
    containsSub s sub = true ↔ ∃ pre post, s = pre ++ (sub ++ post) := by
  constructor
  · intro h
    rw [containsSub, List.any_eq_true] at h
    obtain ⟨i, _, hm⟩ := h
    rw [matchesAt, Bool.and_eq_true, decide_eq_true_iff, decide_eq_true_iff] at hm
    obtain ⟨hle, heq⟩ := hm
    refine ⟨s.take i, s.drop (i + sub.length), ?_⟩
    have h1 : s.drop i = sub ++ s.drop (i + sub.length) := by
      conv_lhs => rw [← List.take_append_drop sub.length (s.drop i)]
      rw [heq, List.drop_drop]
    calc s = s.take i ++ s.drop i := (List.take_append_drop i s).symm
    _ = s.take i ++ (sub ++ s.drop (i + sub.length)) := by rw [h1]
  · rintro ⟨pre, post, rfl⟩
    rw [containsSub, List.any_eq_true]
    refine ⟨pre.length, List.mem_range.mpr ?_, ?_⟩
    · simp [List.length_append]
      omega
    · rw [matchesAt, Bool.and_eq_true, decide_eq_true_iff, decide_eq_true_iff]
      constructor
      · simp [List.length_append]
      · rw [List.drop_left, List.take_left]

/-- Evaluation of one `contains '<text>'` condition on a string-typed field
    present in the record: the source branch at src/main.py lines 182-185. -/
theorem apply_filter_contains_step
    (item : Record) (rest : List (Str × PyVal)) (entity field : Str)
    (itemVal : PyVal) (text : Str)
    (hit : List.lookup field item = some itemVal)
    (hty : List.lookup field (FIELD_TYPES entity) = some .stringT) :
    apply_filter item
      ((field, PyVal.str ("contains '".toList ++ (text ++ "'".toList))) :: rest) entity
      = if containsSub (lowerS (pyStr itemVal)) (lowerS text) then
          apply_filter item rest entity
        else .ok false := by
  have hs : startsWithS ("contains '".toList ++ (text ++ "'".toList))
      "contains '".toList = true := startsWithS_app _ _
  have he : endsWithS ("contains '".toList ++ (text ++ "'".toList))
      "'".toList = true := by
    rw [show "contains '".toList ++ (text ++ "'".toList)
        = ("contains '".toList ++ text) ++ "'".toList by rw [List.append_assoc]]
    exact endsWithS_app _ _
  simp only [apply_filter, hit, hty, hs, he, Bool.and_self, if_true,
    List.drop_left, dropLast_app_quote]

/-- Evaluation of one `exact '<text>'` condition on a string-typed field
    present in the record: the source branch at src/main.py lines 186-189. -/
theorem apply_filter_exact_step
    (item : Record) (rest : List (Str × PyVal)) (entity field : Str)
    (itemVal : PyVal) (text : Str)
    (hit : List.lookup field item = some itemVal)
    (hty : List.lookup field (FIELD_TYPES entity) = some .stringT) :
    apply_filter item
      ((field, PyVal.str ("exact '".toList ++ (text ++ "'".toList))) :: rest) entity
      = if lowerS (pyStr itemVal) = lowerS text then
          apply_filter item rest entity
        else .ok false := by
  have hnc : startsWithS ("exact '".toList ++ (text ++ "'".toList))
      "contains '".toList = false := rfl
  have hs : startsWithS ("exact '".toList ++ (text ++ "'".toList))
      "exact '".toList = true := startsWithS_app _ _
  have he : endsWithS ("exact '".toList ++ (text ++ "'".toList))
      "'".toList = true := by
    rw [show "exact '".toList ++ (text ++ "'".toList)
        = ("exact '".toList ++ text) ++ "'".toList by rw [List.append_assoc]]
    exact endsWithS_app _ _
  simp only [apply_filter, hit, hty, hnc, hs, he, Bool.false_and, Bool.and_self,
    if_false, if_true, List.drop_left, dropLast_app_quote]
  simp

/-- C5: on a string-typed field present in the record, `contains '<text>'`
    matches iff the lowercased text is a substring of the lowercased field
    value, and `exact '<text>'` matches iff the lowercased values are equal;
    `contains 'abc'` matches the value `XABCX` and not `xyz`, and
    `exact 'abc'` matches exactly the case-insensitive equal value. -/
theorem c5_string_conditions_semantics :
    (∀ (item : Record) (entity field : Str) (v text : Str),
        List.lookup field item = some (PyVal.str v) →
        List.lookup field (FIELD_TYPES entity) = some .stringT →
        (apply_filter item
            [(field, PyVal.str ("contains '".toList ++ (text ++ "'".toList)))] entity
          = .ok (containsSub (lowerS v) (lowerS text))
        ∧ (containsSub (lowerS v) (lowerS text) = true
            ↔ ∃ pre post, lowerS v = pre ++ (lowerS text ++ post))
        ∧ apply_filter item
            [(field, PyVal.str ("exact '".toList ++ (text ++ "'".toList)))] entity
          = .ok (decide (lowerS v = lowerS text))))
    ∧ apply_filter [("product_name".toList, PyVal.str "XABCX".toList)]
        [("product_name".toList, PyVal.str "contains 'abc'".toList)] "products".toList
        = .ok true
    ∧ apply_filter [("product_name".toList, PyVal.str "xyz".toList)]
        [("product_name".toList, PyVal.str "contains 'abc'".toList)] "products".toList
        = .ok false
    ∧ apply_filter [("product_name".toList, PyVal.str "ABC".toList)]
        [("product_name".toList, PyVal.str "exact 'abc'".toList)] "products".toList
        = .ok true
    ∧ apply_filter [("product_name".toList, PyVal.str "xabc".toList)]
        [("product_name".toList, PyVal.str "exact 'abc'".toList)] "products".toList
        = .ok false := by
  refine ⟨fun item entity field v text hit hty => ⟨?_, containsSub_iff _ _, ?_⟩,
    rfl, rfl, rfl, rfl⟩
  · rw [apply_filter_contains_step item [] entity field _ text hit hty]
    have hps : pyStr (PyVal.str v) = v := rfl
    rw [hps]
    cases h : containsSub (lowerS v) (lowerS text) with
    | true => rfl
    | false => rfl
  · rw [apply_filter_exact_step item [] entity field _ text hit hty]
    have hps : pyStr (PyVal.str v) = v := rfl
    rw [hps]
    by_cases h : lowerS v = lowerS text
    · rw [if_pos h]
      simp [apply_filter, h]
    · rw [if_neg h]
      simp [h]

/-- C5 witness: the general clause instantiated on a concrete record. -/
theorem c5_string_conditions_semantics_witness :
    apply_filter [("product_description".toList, PyVal.str "Fresh Apples".toList)]
      [("product_description".toList,
        PyVal.str ("contains '".toList ++ ("apple".toList ++ "'".toList)))] "products".toList
      = .ok (containsSub (lowerS "Fresh Apples".toList) (lowerS "apple".toList)) :=
  (c5_string_conditions_semantics.1
    [("product_description".toList, PyVal.str "Fresh Apples".toList)]
    "products".toList "product_description".toList "Fresh Apples".toList "apple".toList
    rfl rfl).1

/-- C9: conditions whose field is missing from the entity's schema field
    mapping are ignored by apply_filter — the evaluation result equals the
    evaluation of the FilterSet restricted to schema-known fields, so the
    outcome depends only on conditions whose fields exist in the schema. -/
def schemaKnown (entity : Str) (filters : List (Str × PyVal)) : List (Str × PyVal) :=
  filters.filter fun p => (List.lookup p.1 (FIELD_TYPES entity)).isSome

theorem schemaKnown_cons_some (entity field : Str) (cond : PyVal)
    (rest : List (Str × PyVal)) (ft : FieldType)
    (h : List.lookup field (FIELD_TYPES entity) = some ft) :
    schemaKnown entity ((field, cond) :: rest) = (field, cond) :: schemaKnown entity rest := by
  simp [schemaKnown, List.filter_cons, h]

theorem schemaKnown_cons_none (entity field : Str) (cond : PyVal)
    (rest : List (Str × PyVal))
    (h : List.lookup field (FIELD_TYPES entity) = none) :
    schemaKnown entity ((field, cond) :: rest) = schemaKnown entity rest := by
  simp [schemaKnown, List.filter_cons, h]

theorem c9_unknown_schema_fields_ignored
    (item : Record) (filters : List (Str × PyVal)) (entity : Str) :
    apply_filter item filters entity
      = apply_filter item (schemaKnown entity filters) entity := by
  induction filters with
  | nil => rfl
  | cons p rest ih =>
    obtain ⟨field, condition⟩ := p
    rcases hft : List.lookup field (FIELD_TYPES entity) with _ | ft
    · rw [schemaKnown_cons_none _ _ _ _ hft]
      cases hit : List.lookup field item with
      | none => simp only [apply_filter, hit]; exact ih
      | some itemVal => simp only [apply_filter, hit, hft]; exact ih
    · rw [schemaKnown_cons_some _ _ _ _ _ hft]
      cases hit : List.lookup field item with
      | none => simp only [apply_filter, hit]; exact ih
      | some itemVal => simp only [apply_filter, hit, hft, ih]

/-- Whether a condition string fails the typed condition grammar of the spec:
    for string fields, neither a well-formed `contains '...'` nor a
    well-formed `exact '...'`; for numeric fields, no space to split on, a
    non-numeric operand, or an operator outside the five-element table. -/
def condGrammarFails : FieldType → Str → Bool
  | .stringT, c =>
    !(startsWithS c "contains '".toList && endsWithS c "'".toList)
      && !(startsWithS c "exact '".toList && endsWithS c "'".toList)
  | .numberT, c =>
    (splitOnce c).elim true fun pr =>
      (parseFloat? pr.2).isNone
        || !(["<".toList, ">".toList, "=".toList,
              "<=".toList, ">=".toList].contains pr.1)

/-- C1 (amended): when every condition value in the FilterSet is a string,
    apply_filter never raises; and a string condition that fails the grammar
    for its declared field type makes apply_filter return false for the
    record (when the field is present so the condition is evaluated). A
    non-string condition value, by contrast, raises — see the
    counterexample. -/
theorem c1_grammar_failure_rejects_and_string_conditions_never_raise :
    (∀ (item : Record) (filters : List (Str × PyVal)) (entity : Str),
        (∀ p ∈ filters, ∃ s, p.2 = PyVal.str s) →
        ∃ b, apply_filter item filters entity = .ok b)
    ∧ (∀ (item : Record) (entity field : Str) (itemVal : PyVal) (c : Str)
          (rest : List (Str × PyVal)) (ft : FieldType),
        List.lookup field item = some itemVal →
        List.lookup field (FIELD_TYPES entity) = some ft →
        condGrammarFails ft c = true →
        apply_filter item ((field, PyVal.str c) :: rest) entity = .ok false) := by
  constructor
  · intro item filters entity h
    induction filters with
    | nil => exact ⟨true, rfl⟩
    | cons p rest ih =>
      obtain ⟨field, condition⟩ := p
      obtain ⟨c, rfl⟩ : ∃ s, condition = PyVal.str s := by
        have := h ⟨field, condition⟩ (List.mem_cons_self _ _)
        simpa using this
      have ih' := ih (fun q hq => h q (List.mem_cons_of_mem _ hq))
      cases hit : List.lookup field item with
      | none => simpa only [apply_filter, hit] using ih'
      | some itemVal =>
        cases hty : List.lookup field (FIELD_TYPES entity) with
        | none => simpa only [apply_filter, hit, hty] using ih'
        | some ft =>
          cases ft with
          | stringT =>
            simp only [apply_filter, hit, hty]
            split
            · split
              · exact ih'
              · exact ⟨false, rfl⟩
            · split
              · split
                · exact ih'
                · exact ⟨false, rfl⟩
              · exact ⟨false, rfl⟩
          | numberT =>
            simp only [apply_filter, hit, hty]
            repeat' split
            all_goals first | exact ih' | exact ⟨false, rfl⟩
  · intro item entity field itemVal c rest ft hit hty hfail
    cases ft with
    | stringT =>
      rw [condGrammarFails, Bool.and_eq_true, Bool.not_eq_true', Bool.not_eq_true'] at hfail
      obtain ⟨h1, h2⟩ := hfail
      simp only [apply_filter, hit, hty, h1, h2]
      simp
    | numberT =>
      rw [condGrammarFails] at hfail
      simp only [apply_filter, hit, hty]
      split
      · rfl
      · rename_i op valueStr hsp
        rw [hsp] at hfail
        simp only [Option.elim] at hfail
        split
        · rfl
        · rename_i v hv
          rw [hv] at hfail
          simp at hfail
          split
          · rfl
          · rename_i itemValue hiv
            obtain ⟨n1, n2, n3, n4, n5⟩ := hfail
            simp [n1, n2, n3, n4, n5]

/-- C1 witness: string conditions never raise (empty FilterSet and a
    grammar-failing numeric condition on a present field both return ok). -/
theorem c1_grammar_failure_rejects_witness :
    (∃ b, apply_filter [] [] "products".toList = Except.ok b)
    ∧ apply_filter [("product_price".toList, PyVal.num 30)]
        [("product_price".toList, PyVal.str "cheap".toList)] "products".toList
        = .ok false :=
  ⟨c1_grammar_failure_rejects_and_string_conditions_never_raise.1 [] []
      "products".toList (by simp),
    c1_grammar_failure_rejects_and_string_conditions_never_raise.2 _
      "products".toList "product_price".toList (PyVal.num 30) "cheap".toList []
      .numberT rfl rfl (by decide)⟩

/-- C1 counterexample: a condition value that is not a string (here the JSON
    number 5) on a schema-typed field present in the record does not make
    apply_filter return false — it raises (AttributeError escaping to the
    orchestrator), refuting `evaluation never raises for any condition
    value`. -/
theorem c1_nonstring_condition_raises_counterexample :
    apply_filter [("product_name".toList, PyVal.str "x".toList)]
      [("product_name".toList, PyVal.num 5)] "products".toList
      = .error .attrError
    ∧ apply_filter [("product_name".toList, PyVal.str "x".toList)]
        [("product_name".toList, PyVal.num 5)] "products".toList
      ≠ .ok false := by
  constructor
  · rfl
  · intro h
    have : (Except.error PyErr.attrError : Except PyErr Bool) = .ok false := by
      rw [← h]; rfl
    exact Except.noConfusion this

theorem splitOnce_app (op vs : Str) (h : ' ' ∉ op) :
    splitOnce (op ++ ' ' :: vs) = some (op, vs) := by
  induction op with
  | nil => simp [splitOnce]
  | cons c cs ih =>
    have hc : (c == ' ') = false := by
      have hne : c ≠ ' ' := fun he => h (by rw [he]; exact List.mem_cons_self _ _)
      simp [hne]
    simp [splitOnce, hc, ih (fun hm => h (List.mem_cons_of_mem _ hm))]

/-- The operator table of the spec: `<`, `>`, `=`, `<=`, `>=` compare the
    record's value against the operand; any other token yields no match. -/
def numCompare (op : Str) (itemValue v : ℚ) : Bool :=
  if op = "<".toList then decide (itemValue < v)
  else if op = ">".toList then decide (itemValue > v)
  else if op = "=".toList then decide (itemValue = v)
  else if op = "<=".toList then decide (itemValue ≤ v)
  else if op = ">=".toList then decide (itemValue ≥ v)
  else false

/-- C4: a numeric condition `op<space>operand` on a number-typed field whose
    record value and operand both parse as floats is evaluated per the
    operator table (an unknown operator token rejects via the table's
    default); `< 50` matches 49 but not 50 or 51, `>= 50` matches 50 and 51
    but not 49; a non-numeric operand or a non-numeric record value rejects
    the record. -/
theorem c4_numeric_operator_table :
    (∀ (item : Record) (entity field : Str) (itemVal : PyVal) (op vs : Str)
        (v iv : ℚ),
        ' ' ∉ op →
        List.lookup field item = some itemVal →
        List.lookup field (FIELD_TYPES entity) = some .numberT →
        parseFloat? vs = some v →
        toFloat? itemVal = some iv →
        apply_filter item [(field, PyVal.str (op ++ ' ' :: vs))] entity
          = .ok (numCompare op iv v))
    ∧ (∀ (item : Record) (entity field : Str) (itemVal : PyVal) (op vs : Str),
        ' ' ∉ op →
        List.lookup field item = some itemVal →
        List.lookup field (FIELD_TYPES entity) = some .numberT →
        parseFloat? vs = none →
        apply_filter item [(field, PyVal.str (op ++ ' ' :: vs))] entity = .ok false)
    ∧ (∀ (item : Record) (entity field : Str) (itemVal : PyVal) (op vs : Str)
        (v : ℚ),
        ' ' ∉ op →
        List.lookup field item = some itemVal →
        List.lookup field (FIELD_TYPES entity) = some .numberT →
        parseFloat? vs = some v →
        toFloat? itemVal = none →
        apply_filter item [(field, PyVal.str (op ++ ' ' :: vs))] entity = .ok false)
    ∧ apply_filter [("product_price".toList, PyVal.num 49)]
        [("product_price".toList, PyVal.str "< 50".toList)] "products".toList = .ok true
    ∧ apply_filter [("product_price".toList, PyVal.num 50)]
        [("product_price".toList, PyVal.str "< 50".toList)] "products".toList = .ok false
    ∧ apply_filter [("product_price".toList, PyVal.num 51)]
        [("product_price".toList, PyVal.str "< 50".toList)] "products".toList = .ok false
    ∧ apply_filter [("product_price".toList, PyVal.num 50)]
        [("product_price".toList, PyVal.str ">= 50".toList)] "products".toList = .ok true
    ∧ apply_filter [("product_price".toList, PyVal.num 51)]
        [("product_price".toList, PyVal.str ">= 50".toList)] "products".toList = .ok true
    ∧ apply_filter [("product_price".toList, PyVal.num 49)]
        [("product_price".toList, PyVal.str ">= 50".toList)] "products".toList = .ok false := by
  refine ⟨?_, ?_, ?_, rfl, rfl, rfl, rfl, rfl, rfl⟩
  · intro item entity field itemVal op vs v iv hop hit hty hv hiv
    simp only [apply_filter, hit, hty, splitOnce_app op vs hop, hv, hiv, numCompare]
    by_cases h1 : op = "<".toList
    · subst h1
      change (if iv ≥ v then (Except.ok false : Except PyErr Bool) else Except.ok true)
        = Except.ok (decide (iv < v))
      rcases le_or_lt v iv with h | h
      · rw [if_pos h, decide_eq_false (not_lt.mpr h)]
      · rw [if_neg (not_le.mpr h), decide_eq_true h]
    · by_cases h2 : op = ">".toList
      · subst h2
        change (if iv ≤ v then (Except.ok false : Except PyErr Bool) else Except.ok true)
          = Except.ok (decide (iv > v))
        rcases le_or_lt iv v with h | h
        · rw [if_pos h, decide_eq_false (not_lt.mpr h)]
        · rw [if_neg (not_le.mpr h), decide_eq_true h]
      · by_cases h3 : op = "=".toList
        · subst h3
          change (if iv ≠ v then (Except.ok false : Except PyErr Bool) else Except.ok true)
            = Except.ok (decide (iv = v))
          by_cases h : iv = v
          · rw [if_neg (not_not_intro h), decide_eq_true h]
          · rw [if_pos h, decide_eq_false h]
        · by_cases h4 : op = "<=".toList
          · subst h4
            change (if iv > v then (Except.ok false : Except PyErr Bool) else Except.ok true)
              = Except.ok (decide (iv ≤ v))
            rcases le_or_lt iv v with h | h
            · rw [if_neg (not_lt.mpr h), decide_eq_true h]
            · rw [if_pos h, decide_eq_false (not_le.mpr h)]
          · by_cases h5 : op = ">=".toList
            · subst h5
              change (if iv < v then (Except.ok false : Except PyErr Bool) else Except.ok true)
                = Except.ok (decide (iv ≥ v))
              rcases le_or_lt v iv with h | h
              · rw [if_neg (not_lt.mpr h), decide_eq_true h]
              · rw [if_pos h, decide_eq_false (not_le.mpr h)]
            · rw [if_neg h1, if_neg h2, if_neg h3, if_neg h4, if_neg h5,
                if_neg h1, if_neg h2, if_neg h3, if_neg h4, if_neg h5]
  · intro item entity field itemVal op vs hop hit hty hv
    simp only [apply_filter, hit, hty, splitOnce_app op vs hop, hv]
  · intro item entity field itemVal op vs v hop hit hty hv hiv
    simp only [apply_filter, hit, hty, splitOnce_app op vs hop, hv, hiv]

/-- C4 witness: the operator-table clause applied at `< 50` against 49. -/
theorem c4_numeric_operator_table_witness :
    apply_filter [("mrp".toList, PyVal.num 49)]
      [("mrp".toList, PyVal.str ("<".toList ++ ' ' :: "50".toList))] "products".toList
      = .ok (numCompare "<".toList 49 50) :=
  c4_numeric_operator_table.1 [("mrp".toList, PyVal.num 49)] "products".toList
    "mrp".toList (PyVal.num 49) "<".toList "50".toList 50 49 (by decide) rfl rfl
    (by decide) rfl

/-- Telegram's maximum message length, MAX_LEN in handle_message. -/
def MAX_LEN : Nat := 4096

/-- The record separator joining formatted items. -/
def SEP : Str := "\n\n---\n\n".toList

/-- The ellipsis marker appended to a truncated message. -/
def TRUNC_MARK : Str := "\n\n[...]✂️".toList

/-- The secondary notice sent after a truncated reply. -/
def shortNotice (entity : Str) : Str :=
  "ℹ️ The list for *".toList ++ entity
    ++ "* was too long and had to be shortened.".toList

/-- Scan start positions n, n-1, ..., 0 for the last occurrence of `sub`. -/
def rfindFrom (s sub : Str) : Nat → Option Nat
  | 0 => if matchesAt s sub 0 then some 0 else none
  | i + 1 => if matchesAt s sub (i + 1) then some (i + 1) else rfindFrom s sub i

/-- Python `s.rfind(sub, 0, e)`: the largest start index at which `sub`
    occurs entirely inside `s[0:e]`; `none` models the return value -1. -/
def pyRfind (s sub : Str) (e : Nat) : Option Nat :=
  if sub.length ≤ min e s.length then rfindFrom s sub (min e s.length - sub.length)
  else none

/-- The reply/truncation step of handle_message (src/main.py lines 408-417):
    the outgoing messages for an assembled response text. `Option.getD`
    renders the source's `-1` check on `rfind`. -/
def reply_step (entity : Str) (response_text : Str) : List Str :=
  if response_text.length > MAX_LEN then
    let trunc_point := (pyRfind response_text SEP (MAX_LEN - 20)).getD (MAX_LEN - 20)
    [response_text.take trunc_point ++ TRUNC_MARK, shortNotice entity]
  else [response_text]

theorem rfindFrom_spec (s sub : Str) (n : Nat) :
    (∀ i, rfindFrom s sub n = some i →
        matchesAt s sub i = true ∧ i ≤ n
          ∧ ∀ j, j ≤ n → matchesAt s sub j = true → j ≤ i)
    ∧ (rfindFrom s sub n = none → ∀ j, j ≤ n → matchesAt s sub j = false) := by
  induction n with
  | zero =>
    constructor
    · intro i h
      rw [rfindFrom] at h
      by_cases hm : matchesAt s sub 0 = true
      · rw [if_pos hm] at h
        obtain rfl := Option.some.inj h
        exact ⟨hm, Nat.le_refl 0, fun j hj _ => hj⟩
      · rw [if_neg hm] at h
        cases h
    · intro h j hj
      rw [Nat.le_zero] at hj
      subst hj
      rw [rfindFrom] at h
      by_cases hm : matchesAt s sub 0 = true
      · rw [if_pos hm] at h
        cases h
      · simpa using hm
  | succ n ih =>
    constructor
    · intro i h
      rw [rfindFrom] at h
      by_cases hm : matchesAt s sub (n + 1) = true
      · rw [if_pos hm] at h
        obtain rfl := Option.some.inj h
        exact ⟨hm, Nat.le_refl _, fun j hj _ => hj⟩
      · rw [if_neg hm] at h
        obtain ⟨hmi, hin, hmax⟩ := ih.1 i h
        refine ⟨hmi, Nat.le_succ_of_le hin, fun j hj hmj => ?_⟩
        have hsplit : j ≤ n ∨ j = n + 1 := by omega
        rcases hsplit with hj' | rfl
        · exact hmax j hj' hmj
        · exact absurd hmj hm
    · intro h j hj
      rw [rfindFrom] at h
      by_cases hm : matchesAt s sub (n + 1) = true
      · rw [if_pos hm] at h
        cases h
      · rw [if_neg hm] at h
        have hsplit : j ≤ n ∨ j = n + 1 := by omega
        rcases hsplit with hj' | rfl
        · exact ih.2 h j hj'
        · simpa using hm

theorem pyRfind_eq_some (s sub : Str) (e i : Nat) (he : e ≤ s.length)
    (hl : sub.length ≤ e) (h : pyRfind s sub e = some i) :
    matchesAt s sub i = true ∧ i + sub.length ≤ e
      ∧ ∀ j, matchesAt s sub j = true → j + sub.length ≤ e → j ≤ i := by
  rw [pyRfind, Nat.min_eq_left he, if_pos (by omega : sub.length ≤ e)] at h
  obtain ⟨hm, hle, hmax⟩ := (rfindFrom_spec s sub (e - sub.length)).1 i h
  exact ⟨hm, by omega, fun j hmj hje => hmax j (by omega) hmj⟩

theorem pyRfind_eq_none (s sub : Str) (e : Nat) (he : e ≤ s.length)
    (hl : sub.length ≤ e) (h : pyRfind s sub e = none) :
    ∀ j, j + sub.length ≤ e → matchesAt s sub j = false := by
  rw [pyRfind, Nat.min_eq_left he, if_pos (by omega : sub.length ≤ e)] at h
  intro j hj
  exact (rfindFrom_spec s sub (e - sub.length)).2 h j (by omega)

/-- C3: whenever the assembled response exceeds MAX_LEN, the truncation step
    cuts at the last separator occurrence lying entirely within the first
    MAX_LEN - 20 characters (maximal such start index), or at MAX_LEN - 20
    when no such occurrence exists; the primary message is the cut text plus
    the ellipsis marker and never exceeds MAX_LEN; and the secondary
    shortened notice is always the second outgoing message. -/
theorem c3_truncation_at_boundary_and_bounded (entity t : Str)
    (hlong : t.length > MAX_LEN) :
    ∃ p, reply_step entity t = [t.take p ++ TRUNC_MARK, shortNotice entity]
      ∧ (t.take p ++ TRUNC_MARK).length ≤ MAX_LEN
      ∧ ((∃ i, matchesAt t SEP i = true ∧ i + SEP.length ≤ MAX_LEN - 20) →
          matchesAt t SEP p = true ∧ p + SEP.length ≤ MAX_LEN - 20
            ∧ ∀ j, matchesAt t SEP j = true → j + SEP.length ≤ MAX_LEN - 20 → j ≤ p)
      ∧ ((∀ i, matchesAt t SEP i = true → ¬(i + SEP.length ≤ MAX_LEN - 20)) →
          p = MAX_LEN - 20) := by
  have he : MAX_LEN - 20 ≤ t.length := by
    rw [MAX_LEN] at hlong ⊢
    omega
  have hsl : SEP.length = 7 := by decide
  have htm : TRUNC_MARK.length = 9 := by decide
  rw [reply_step, if_pos hlong]
  cases hr : pyRfind t SEP (MAX_LEN - 20) with
  | some i =>
    obtain ⟨hm, hle, hmax⟩ := pyRfind_eq_some t SEP (MAX_LEN - 20) i he
      (by rw [hsl, MAX_LEN]; omega) hr
    refine ⟨i, rfl, ?_, fun _ => ⟨hm, hle, hmax⟩,
      fun hnone => absurd hle (hnone i hm)⟩
    rw [hsl] at hle
    rw [MAX_LEN] at hle hlong
    have hil : i ≤ t.length := by omega
    rw [List.length_append, List.length_take, Nat.min_eq_left hil, htm, MAX_LEN]
    omega
  | none =>
    have hnone := pyRfind_eq_none t SEP (MAX_LEN - 20) he
      (by rw [hsl, MAX_LEN]; omega) hr
    refine ⟨MAX_LEN - 20, rfl, ?_, fun hex => ?_, fun _ => rfl⟩
    · rw [List.length_append, List.length_take, Nat.min_eq_left he, htm, MAX_LEN]
      omega
    · obtain ⟨i, hm, hle⟩ := hex
      rw [hnone i hle] at hm
      cases hm

/-- C3 witness: a concrete over-long response is truncated and followed by
    the shortened notice. -/
theorem c3_truncation_at_boundary_and_bounded_witness :
    (List.replicate 4200 'a').length > MAX_LEN
    ∧ ∃ p, reply_step "products".toList (List.replicate 4200 'a')
          = [(List.replicate 4200 'a').take p ++ TRUNC_MARK,
             shortNotice "products".toList]
        ∧ ((List.replicate 4200 'a').take p ++ TRUNC_MARK).length ≤ MAX_LEN
        ∧ ((∃ i, matchesAt (List.replicate 4200 'a') SEP i = true
              ∧ i + SEP.length ≤ MAX_LEN - 20) →
            matchesAt (List.replicate 4200 'a') SEP p = true
              ∧ p + SEP.length ≤ MAX_LEN - 20
              ∧ ∀ j, matchesAt (List.replicate 4200 'a') SEP j = true →
                  j + SEP.length ≤ MAX_LEN - 20 → j ≤ p)
        ∧ ((∀ i, matchesAt (List.replicate 4200 'a') SEP i = true →
              ¬(i + SEP.length ≤ MAX_LEN - 20)) → p = MAX_LEN - 20) :=
  ⟨by rw [List.length_replicate, MAX_LEN]; omega,
    c3_truncation_at_boundary_and_bounded "products".toList (List.replicate 4200 'a')
      (by rw [List.length_replicate, MAX_LEN]; omega)⟩

/-- One element of the fetched data list: a mapping or something else
    (the source's `isinstance(item, dict)` distinction). -/
inductive PyItem where
  | dict : Record → PyItem
  | nonDict : PyItem
deriving DecidableEq

/-- The `isinstance(item, dict)` test. -/
def PyItem.isDict : PyItem → Bool
  | .dict _ => true
  | .nonDict => false

/-- Decimal rendering of a count for the title line. -/
def natToStr (n : Nat) : Str := Nat.toDigits 10 n

/-- Python `sep.join(items)`. -/
def joinS (sep : Str) : List Str → Str
  | [] => []
  | [x] => x
  | x :: xs => x ++ sep ++ joinS sep xs

/-- format_filters in src/main.py: ` where f1 c1 and f2 c2 ...`, empty for an
    empty FilterSet. -/
def format_filters (filters : List (Str × PyVal)) : Str :=
  if filters = [] then []
  else " where ".toList
    ++ joinS " and ".toList (filters.map fun p => p.1 ++ ' ' :: pyStr p.2)

/-- The identifier rendered in an error placeholder (src/main.py line 350):
    `item.get(f'{entity[:-1]}_id', item.get('id', item.get('product_id',
    item.get('factory_id', 'Unknown ID'))))`. -/
def errorItemId (entity : Str) (d : Record) : Str :=
  match List.lookup (entity.dropLast ++ "_id".toList) d with
  | some v => pyStr v
  | none =>
    match List.lookup "id".toList d with
    | some v => pyStr v
    | none =>
      match List.lookup "product_id".toList d with
      | some v => pyStr v
      | none =>
        match List.lookup "factory_id".toList d with
        | some v => pyStr v
        | none => "Unknown ID".toList

/-- The item loop of format_response (src/main.py lines 340-351),
    parameterized by the per-entity layout function `fmtr`; `.error` models a
    layout raising, which yields the one-line error placeholder. A non-dict
    item is logged and skipped: nothing is appended for it. -/
def output_items (fmtr : Record → Except Unit Str) (entity : Str) :
    List PyItem → List Str
  | [] => []
  | .dict d :: rest =>
    (match fmtr d with
     | .ok s => s
     | .error _ => "⚠️ Error formatting item: ID ".toList ++ errorItemId entity d)
      :: output_items fmtr entity rest
  | .nonDict :: rest => output_items fmtr entity rest

/-- The title line of format_response (src/main.py lines 352-355). -/
def mkTitle (entity : Str) (filters : List (Str × PyVal)) (n : Nat) : Str :=
  if filters ≠ [] then
    "🔍 *Found ".toList ++ natToStr n ++ ' ' :: capitalizeS entity
      ++ format_filters filters ++ "*:\n\n".toList
  else
    "🔍 *Found ".toList ++ natToStr n ++ ' ' :: capitalizeS entity
      ++ "*:\n\n".toList

/-- format_response in src/main.py, parameterized by the layout function
    selected from the formatters table (or the generic JSON fallback). -/
def format_response (fmtr : Record → Except Unit Str) (data : List PyItem)
    (entity : Str) (filters : List (Str × PyVal)) : Str :=
  if data = [] then
    if filters ≠ [] then
      "ℹ️ No ".toList ++ entity ++ " found matching".toList
        ++ format_filters filters ++ ".".toList
    else
      "ℹ️ No ".toList ++ entity ++ " found.".toList
  else
    mkTitle entity filters (output_items fmtr entity data).length
      ++ joinS SEP (output_items fmtr entity data)

theorem output_items_count (fmtr : Record → Except Unit Str) (entity : Str)
    (data : List PyItem) :
    (output_items fmtr entity data).length
      = (data.filter PyItem.isDict).length := by
  induction data with
  | nil => rfl
  | cons x rest ih =>
    cases x with
    | dict d => simp [output_items, List.filter_cons, PyItem.isDict, ih]
    | nonDict => simp [output_items, List.filter_cons, PyItem.isDict, ih]

theorem output_items_le (fmtr : Record → Except Unit Str) (entity : Str)
    (data : List PyItem) :
    (output_items fmtr entity data).length ≤ data.length := by
  induction data with
  | nil => exact Nat.le_refl 0
  | cons x rest ih =>
    cases x with
    | dict d =>
      simp only [output_items, List.length_cons]
      exact Nat.succ_le_succ ih
    | nonDict =>
      simp only [output_items, List.length_cons]
      exact Nat.le_succ_of_le ih

theorem output_items_lt (fmtr : Record → Except Unit Str) (entity : Str)
    (data : List PyItem) (hmem : PyItem.nonDict ∈ data) :
    (output_items fmtr entity data).length < data.length := by
  induction data with
  | nil => cases hmem
  | cons x rest ih =>
    cases x with
    | dict d =>
      have hrest : PyItem.nonDict ∈ rest := by
        rcases List.mem_cons.mp hmem with h | h
        · exact absurd h (by intro hc; cases hc)
        · exact h
      simp only [output_items, List.length_cons]
      exact Nat.succ_lt_succ (ih hrest)
    | nonDict =>
      simp only [output_items, List.length_cons]
      exact Nat.lt_succ_of_le (output_items_le fmtr entity rest)

/-- C10: on a non-empty data list, format_response renders a title whose
    `Found N` count is the length of the rendered item list; a non-dict item
    contributes nothing (no placeholder), while every dict item contributes
    exactly one rendered entry — the layout's output or, when the layout
    raised, the error placeholder — so N equals the number of dict items, is
    at most the input length, and is strictly less when a non-dict item is
    present. -/
theorem c10_format_response_count_equals_rendered
    (fmtr : Record → Except Unit Str) (data : List PyItem)
    (entity : Str) (filters : List (Str × PyVal)) (hne : data ≠ []) :
    format_response fmtr data entity filters
      = mkTitle entity filters (output_items fmtr entity data).length
          ++ joinS SEP (output_items fmtr entity data)
    ∧ (output_items fmtr entity data).length
        = (data.filter PyItem.isDict).length
    ∧ (output_items fmtr entity data).length ≤ data.length
    ∧ (PyItem.nonDict ∈ data →
        (output_items fmtr entity data).length < data.length) := by
  refine ⟨?_, output_items_count fmtr entity data, output_items_le fmtr entity data,
    output_items_lt fmtr entity data⟩
  rw [format_response, if_neg hne]

/-- C10 witness: one dict item whose layout raised and one non-dict item
    render a single placeholder entry, so the title counts 1 of 2. -/
theorem c10_format_response_count_equals_rendered_witness :
    format_response (fun _ => .error ()) [PyItem.dict [], PyItem.nonDict]
        "products".toList []
      = mkTitle "products".toList []
          (output_items (fun _ => .error ()) "products".toList
            [PyItem.dict [], PyItem.nonDict]).length
        ++ joinS SEP (output_items (fun _ => .error ()) "products".toList
            [PyItem.dict [], PyItem.nonDict])
    ∧ (output_items (fun _ => .error ()) "products".toList
        [PyItem.dict [], PyItem.nonDict]).length
        = ([PyItem.dict [], PyItem.nonDict].filter PyItem.isDict).length
    ∧ (output_items (fun _ => .error ()) "products".toList
        [PyItem.dict [], PyItem.nonDict]).length
        ≤ [PyItem.dict [], PyItem.nonDict].length
    ∧ (PyItem.nonDict ∈ [PyItem.dict [], PyItem.nonDict] →
        (output_items (fun _ => .error ()) "products".toList
          [PyItem.dict [], PyItem.nonDict]).length
          < [PyItem.dict [], PyItem.nonDict].length) :=
  c10_format_response_count_equals_rendered (fun _ => .error ())
    [PyItem.dict [], PyItem.nonDict] "products".toList [] (by simp)
